import Mathlib

/-!
Shallow embedding of the PostHog demo "SessionHog" traffic generator
(`src/app/sessions_server.js` and the run-loop / fixture-generator copies in
`src/unnamed/part_000` and `src/unnamed/part_001`), together with theorems
settling the frozen claims about it.

Modelling conventions:
* JavaScript exceptions are modelled with `Except String`; `jsTry` is the
  semantics of `try/catch`, `jsTryCatchFinally` of `try/catch/finally`
  (a throwing finalizer replaces the pending result, as in JS).
* `Math.random()` draws are modelled by oracle naturals: where the source
  computes `Math.floor(Math.random() * k) + lo`, the embedding takes an
  arbitrary `r : Nat` and uses `lo + r % k`; uniformity of the draw is
  expressed by the residue map being a bijection onto the target range.
* Every fallible awaited operation of the run loop is a numbered step whose
  success is decided by an oracle `RunEnv.fails : Nat → Bool`; data-dependent
  branches of the source are separate oracle fields.
-/

namespace SessionHog

/-- JavaScript computations that may throw; the `String` is the error message. -/
abbrev JsResult (α : Type) := Except String α

/-- Semantics of a JS `try { body } catch (e) { handler e }`. -/
def jsTry {α : Type} (body : JsResult α) (handler : String → JsResult α) : JsResult α :=
  match body with
  | .ok a => .ok a
  | .error e => handler e

/-- Semantics of JS `try/catch/finally`: the caught result stands unless the
finalizer itself throws, in which case the finalizer's error replaces it. -/
def jsTryCatchFinally {α : Type} (body : JsResult α) (handler : String → JsResult α)
    (finalizer : JsResult Unit) : JsResult α :=
  match finalizer with
  | .ok _ => jsTry body handler
  | .error e => .error e

/-- Computes `Except.isOk` as a plain Bool (to keep every definition executable). -/
def jsOk {α : Type} : JsResult α → Bool
  | .ok _ => true
  | .error _ => false

/-! ## Fixture generator (`src/unnamed/part_000`, lines 397-416) -/

/-- Source line 398: the fixed `sources` table of `generateUtm`. -/
def utmSources : List String :=
  ["google", "chatgpt", "facebook", "twitter", "direct", "email"]

/-- Source line 399: the fixed `campaigns` table of `generateUtm`. -/
def utmCampaigns : List String :=
  ["winter2024", "socialads", "emailblast", "organic"]

/-- Source line 400: the fixed `mediums` table of `generateUtm`. -/
def utmMediums : List String :=
  ["search", "social", "cpc", "email", "organic"]

/-- Source line 401: the fixed `searchTerms` table of `generateUtm`. -/
def utmSearchTerms : List String :=
  ["movie streaming", "watch movies online", "best streaming service", "new movies"]

/-- The object returned by `generateUtm` (part_000 lines 404-415); the
`utm_term` key is optional. -/
structure UtmParams where
  utm_source : String
  utm_medium : String
  utm_campaign : String
  utm_term : Option String
deriving Repr, DecidableEq

/-- Models `arr[Math.floor(Math.random() * arr.length)]`: the random draw is the
oracle natural `r`, reduced modulo the table length. -/
def pick (arr : List String) (r : Nat) : String :=
  arr.getD (r % arr.length) ""

/-- Embeds `generateUtm` (part_000 lines 397-416; the copy at part_001 lines 644-663
is textually identical).  `rMedium`, `rSource`, `rCampaign`, `rTerm` are the
four independent `Math.random()` draws, in source order. -/
def generateUtm (rMedium rSource rCampaign rTerm : Nat) : UtmParams :=
  let utm_medium := pick utmMediums rMedium
  { utm_source := pick utmSources rSource
    utm_medium := utm_medium
    utm_campaign := pick utmCampaigns rCampaign
    -- lines 410-413: utm_term added only when the medium is "search"
    utm_term := if utm_medium = "search" then some (pick utmSearchTerms rTerm) else none }

/-- Models `Math.floor(Math.random() * (hi - lo + 1)) + lo`, with the raw draw
modelled as an arbitrary natural reduced modulo the range size. -/
def randomInt (r lo hi : Nat) : Nat :=
  lo + r % (hi - lo + 1)

/-- Membership of a `pick` in its table, for any nonempty table. -/
theorem pick_mem (arr : List String) (r : Nat) (h : arr ≠ []) : pick arr r ∈ arr := by
  unfold pick
  have hlen : 0 < arr.length := List.length_pos.mpr h
  have hlt : r % arr.length < arr.length := Nat.mod_lt _ hlen
  rw [List.getD_eq_getElem?_getD, List.getElem?_eq_getElem hlt]
  exact List.getElem_mem _

/-- C6. For every value returned by `generateUtm`, the `utm_term` field is
present iff `utm_medium` is the literal `"search"`; `utm_source`,
`utm_medium` and `utm_campaign` are each drawn from their own fixed table,
and any present `utm_term` comes from the fixed search-term table. -/
theorem generateUtm_term_iff_search (rm rs rc rt : Nat) :
    ((generateUtm rm rs rc rt).utm_term.isSome ↔
        (generateUtm rm rs rc rt).utm_medium = "search")
    ∧ (generateUtm rm rs rc rt).utm_source ∈ utmSources
    ∧ (generateUtm rm rs rc rt).utm_medium ∈ utmMediums
    ∧ (generateUtm rm rs rc rt).utm_campaign ∈ utmCampaigns
    ∧ ∀ t, (generateUtm rm rs rc rt).utm_term = some t → t ∈ utmSearchTerms := by
  refine ⟨?_, ?_, ?_, ?_, ?_⟩
  · unfold generateUtm
    by_cases h : pick utmMediums rm = "search" <;> simp [h]
  · exact pick_mem _ _ (by decide)
  · exact pick_mem _ _ (by decide)
  · exact pick_mem _ _ (by decide)
  · intro t ht
    unfold generateUtm at ht
    by_cases h : pick utmMediums rm = "search"
    · simp only [h, if_pos] at ht
      simp only [Option.some.injEq] at ht
      exact ht ▸ pick_mem _ _ (by decide)
    · simp [h] at ht

/-- Witness for C6 at the concrete draws (0,0,0,0): medium `"search"`,
term `"movie streaming"`. -/
theorem generateUtm_term_iff_search_witness :
    "movie streaming" ∈ utmSearchTerms :=
  (generateUtm_term_iff_search 0 0 0 0).2.2.2.2 "movie streaming" (by decide)

/-! ## The session run loop (`src/unnamed/part_000`, `runSession`, lines 12-296)

Every awaited operation of the run body that can reject is a numbered step;
`RunEnv.fails k` decides whether the `k`-th such operation (in source order)
rejects when it is reached.  Data-dependent branches are separate fields. -/

/-- Oracle for one execution of `runSession`. -/
structure RunEnv where
  /-- Whether the `k`-th fallible awaited operation rejects when reached. -/
  fails : Nat → Bool
  /-- Whether `deviceConfig.userAgent` is present (part_000 line 44; true for the mobile
  profiles, false for desktop/tablet). -/
  hasUserAgent : Bool
  /-- The Codespaces continue-button `waitForSelector` resolves (line 77);
  when false it throws a timeout error, swallowed at lines 88-91. -/
  continueButtonFound : Bool
  /-- The consent roll `Math.random() < 0.55` (line 127). -/
  consentRoll : Bool
  /-- A CSRF token was found by the evaluate at lines 159-165 (its absence
  only triggers the warn at line 168, never a throw). -/
  csrfFound : Bool
  /-- Text of the `.alert-error` banner read at lines 188-191, if present;
  `some msg` makes line 195 throw. -/
  loginErrorBanner : Option String
  /-- The `#signup-modal` is visible (lines 211-214). -/
  modalVisible : Bool
  /-- The `bb.sessions.update` release call in the finally block rejects
  (lines 287-290). -/
  releaseFails : Bool

/-- The `k`-th fallible awaited operation of the run body. -/
def step (env : RunEnv) (k : Nat) : JsResult Unit :=
  if env.fails k then .error ("step " ++ toString k ++ " failed") else .ok ()

/-- All of steps `a, a+1, ..., b` in order (a contiguous block of
unconditional awaited operations). -/
def stepRange (env : RunEnv) (a b : Nat) : JsResult Unit :=
  (List.range (b + 1 - a)).foldl (fun acc j => acc >>= fun _ => step env (a + j)) (.ok ())

/-- Identifier resolution for a JS statement: the statement throws a
`ReferenceError` at the first identifier not bound in the enclosing scope. -/
def resolveIdents (scope idents : List String) : JsResult Unit :=
  match idents.find? (fun x => !scope.contains x) with
  | some x => .error ("ReferenceError: " ++ x ++ " is not defined")
  | none => .ok ()

/-- The body of the outer `try` of `runSession` (part_000 lines 14-279),
minus the initial `console.log`, as a sequence of oracle-driven steps.
Step numbers map to source lines as commented. -/
def runSessionSteps (env : RunEnv) : JsResult Unit := do
  step env 0   -- line 18: session = await bb.sessions.create({...})
  step env 1   -- line 35: browser = await chromium.connectOverCDP(session.connectUrl)
  step env 2   -- line 40: await page.setViewportSize(deviceConfig.viewport)
  -- lines 43-51: try { if (deviceConfig.userAgent) setExtraHTTPHeaders } catch warn
  jsTry (if env.hasUserAgent then step env 3 else .ok ()) (fun _ => .ok ())
  step env 4   -- line 65: await page.evaluate(() => navigator.userAgent)
  -- lines 68-108: navigation try block; its catch (105-108) logs and rethrows
  jsTry (do
      step env 5   -- lines 70-73: goto BASE_DOMAIN with utm query
      -- lines 76-91: try { waitForSelector continue button; click; wait } catch log
      jsTry (if env.continueButtonFound then do
               step env 6   -- line 84: continueButton.click()
               step env 7   -- line 86: page.waitForLoadState
             else .error "waitForSelector: continue button timeout")  -- line 77
        (fun _ => .ok ())
      step env 8   -- line 93: humanPause MEDIUM
      step env 9   -- lines 96-99: Promise.all(waitForLoadState, goto signup)
      step env 10  -- line 102: waitForSelector .form-control
      step env 11) -- line 103: humanPause SHORT
    (fun e => .error e)
  stepRange env 12 22  -- lines 110-124: username/email/password fills, tabs, pauses
  -- lines 127-130: 55% consent branch (tab + naturalClick .form-check-input)
  (if env.consentRoll then stepRange env 23 24 else .ok ())
  stepRange env 25 31  -- lines 133-143: pauses, scroll, plan click, submit click
  step env 32  -- line 151: goto BASE_DOMAIN/login
  -- lines 152-201: login try block; its catch (198-201) logs and rethrows
  jsTry (do
      step env 33  -- line 153: humanPause MEDIUM
      -- lines 157-172: try { evaluate CSRF token } catch warn; warn if absent
      jsTry (do
          step env 34  -- lines 159-165: page.evaluate for the token
          if env.csrfFound then .ok () else .ok ())  -- line 168: warn only
        (fun _ => .ok ())
      stepRange env 35 38  -- lines 175-178: fill #username, pause, fill #password, pause
      step env 39  -- line 184: click input[type=submit]
      step env 40  -- line 185: humanPause MEDIUM
      step env 41  -- lines 188-191: evaluate .alert-error text
      match env.loginErrorBanner with
      | some msg => .error ("Login failed: " ++ msg)  -- line 195
      | none => .ok ())
    (fun e => .error e)
  step env 42  -- line 204: humanPause MEDIUM
  step env 43  -- line 207: goto BASE_DOMAIN (home)
  step env 44  -- lines 211-214: evaluate modal visibility
  -- lines 216-229: modal branch; click close, on failure remove via evaluate
  (if env.modalVisible then
      jsTry (do
          step env 45  -- line 219: click #close-modal
          step env 46) -- line 220: humanPause SHORT
        (fun _ => step env 47)  -- lines 223-227: evaluate modal removal
    else .ok ())
  -- lines 232-258: movie/logout try block; its catch (255-258) logs and rethrows
  jsTry (do
      step env 48  -- line 234: naturalClick movie link
      step env 49  -- line 236: waitForLoadState networkidle
      step env 50  -- line 239: humanPause LONG
      step env 51  -- line 245: naturalClick "Welcome back to Hogflix"
      step env 52  -- line 246: humanPause MEDIUM
      step env 53) -- lines 249-252: Promise.all(waitForLoadState, logout click)
    (fun e => .error e)
  step env 54  -- line 262: humanPause LONG
  step env 55  -- line 263: page.close()
  step env 56  -- line 264: browser.close()
  -- lines 267-278: fullUrl construction and final log (pure; cannot reject)

/-- What an invocation of the run loop produces, together with the
observable effects of its finally block. -/
structure SessionResult where
  /-- The value the caller of `runSession` observes (`.error` would mean an
  exception escaped the function). -/
  value : JsResult Bool
  /-- Whether `session?.id` was truthy in the finally block, i.e. the create call
  succeeded before any later failure. -/
  sessionAcquired : Bool
  /-- Number of `bb.sessions.update(..., REQUEST_RELEASE)` attempts made. -/
  releaseAttempts : Nat
  /-- The warn at line 292 fired (release attempted and rejected). -/
  releaseFailureLogged : Bool
  /-- The outer catch (lines 280-282) logged a run failure. -/
  runFailureLogged : Bool
deriving Repr

/-- The finally block (part_000 lines 283-295): when the session was
acquired, one release attempt, whose own failure is caught and only warned.
Returns the finalizer's outcome plus the attempt count and warn flag. -/
def runSessionFinally (env : RunEnv) (acquired : Bool) : JsResult Unit × Nat × Bool :=
  if acquired then
    -- lines 286-293: try { await bb.sessions.update(...) } catch { warn }
    match jsTry (if env.releaseFails then (.error "release failed" : JsResult Unit)
                 else .ok ()) (fun _ => .ok ()) with
    | .ok _ => (.ok (), 1, env.releaseFails)
    | .error e => (.error e, 1, env.releaseFails)
  else (.ok (), 0, false)

/-- The body of the outer `try`: the initial `console.log` of the session
banner (whose identifiers must resolve in the enclosing scope), then the
numbered steps. -/
def runSessionBodyWith (scope firstLogIdents : List String) (env : RunEnv) : JsResult Unit :=
  resolveIdents scope firstLogIdents >>= fun _ => runSessionSteps env

/-- Computes whether `session?.id` is truthy in the finally block: the first try statement
resolved and the create call (step 0) succeeded. -/
def runSessionAcquired (scope firstLogIdents : List String) (env : RunEnv) : Bool :=
  jsOk (resolveIdents scope firstLogIdents) && !env.fails 0

/-- The run loop shared by part_000 and part_001: the two copies differ (for
the purposes of the claims) in the scope available inside the function and in
the identifiers of the first `console.log` of the try block. -/
def runSessionWith (scope firstLogIdents : List String) (env : RunEnv) : SessionResult :=
  { value := jsTryCatchFinally
      (runSessionBodyWith scope firstLogIdents env >>= fun _ => .ok true)  -- line 279
      (fun _ => .ok false)               -- lines 280-282: log and return false
      (runSessionFinally env (runSessionAcquired scope firstLogIdents env)).1
    sessionAcquired := runSessionAcquired scope firstLogIdents env
    releaseAttempts := (runSessionFinally env (runSessionAcquired scope firstLogIdents env)).2.1
    releaseFailureLogged :=
      (runSessionFinally env (runSessionAcquired scope firstLogIdents env)).2.2
    runFailureLogged := !jsOk (runSessionBodyWith scope firstLogIdents env) }

/-- Module-level bindings of `src/unnamed/part_000` visible inside its
`runSession` (imports at lines 1-10 and the sibling functions). -/
def part000ModuleScope : List String :=
  ["chromium", "randomizeBrowser", "randomizeGeolocation", "moveMouseHuman",
   "naturalClick", "naturalScroll", "naturalType", "humanPause",
   "runSession", "generatePlanSelection", "generateUser", "generateUtm",
   "generateMovieNumber"]

/-- Host globals available to both copies. -/
def jsGlobals : List String :=
  ["console", "process", "Math", "Promise", "Date", "JSON", "Error", "URL",
   "setTimeout", "document", "window", "navigator"]

/-- Scope inside part_000's `runSession`: its four parameters (line 12), its
`session` local (line 13), the module bindings and the host globals. -/
def part000RunSessionScope : List String :=
  ["sessionNumber", "totalSessions", "bb", "BASE_DOMAIN", "session"]
    ++ part000ModuleScope ++ jsGlobals

/-- Module-level bindings of `src/unnamed/part_001` visible inside its
`runSession` (imports at lines 1-16 and the module declarations). -/
def part001ModuleScope : List String :=
  ["chromium", "Browserbase", "dotenv", "path", "cron", "express",
   "fileURLToPath", "randomizeBrowser", "randomizeGeolocation",
   "moveMouseHuman", "naturalClick", "naturalScroll", "naturalType",
   "humanPause", "__dirname", "BROWSERBASE_API_KEY", "BROWSERBASE_PROJECT_ID",
   "BASE_DOMAIN", "API_KEY", "bb", "isJobRunning", "currentJobStats",
   "apiKeyAuth", "runScheduledSessions", "app", "port", "runSession",
   "generatePlanSelection", "generateUser", "generateUtm",
   "generateMovieNumber"]

/-- Scope inside part_001's `runSession`: its single parameter
`sessionNumber` (line 255), its `session` local (line 256), the module
bindings and the host globals.  `sessionCount` is only a local constant of
`runScheduledSessions` (part_001 line 103) and is NOT in this scope. -/
def part001RunSessionScope : List String :=
  ["sessionNumber", "session"] ++ part001ModuleScope ++ jsGlobals

/-- Embeds `runSession` of part_000 (lines 12-296); its first try statement
(line 15) interpolates `sessionNumber` and `totalSessions`, both in scope. -/
def runSession (env : RunEnv) : SessionResult :=
  runSessionWith part000RunSessionScope ["console", "sessionNumber", "totalSessions"] env

/-- Embeds `runSession` of part_001 (lines 255-542); its first try statement
(line 258) interpolates `sessionNumber` and `sessionCount`. -/
def runSessionP1 (env : RunEnv) : SessionResult :=
  runSessionWith part001RunSessionScope ["console", "sessionNumber", "sessionCount"] env

/-- The finally block itself never throws: its release call is wrapped in its
own `try/catch` (part_000 lines 286-293). -/
theorem runSessionFinally_fst (env : RunEnv) (a : Bool) :
    (runSessionFinally env a).1 = .ok () := by
  unfold runSessionFinally
  cases a with
  | false => rfl
  | true => cases h : env.releaseFails <;> simp [jsTry, h]

/-- The finally block makes one release attempt iff the session was acquired. -/
theorem runSessionFinally_attempts (env : RunEnv) (a : Bool) :
    (runSessionFinally env a).2.1 = if a then 1 else 0 := by
  unfold runSessionFinally
  cases a with
  | false => rfl
  | true => cases h : env.releaseFails <;> simp [jsTry, h]

/-- The cleanup warn fires exactly when a release was attempted and failed. -/
theorem runSessionFinally_warned (env : RunEnv) (a : Bool) :
    (runSessionFinally env a).2.2 = (a && env.releaseFails) := by
  unfold runSessionFinally
  cases a with
  | false => rfl
  | true => cases h : env.releaseFails <;> simp [jsTry, h]

/-- Since the finalizer never throws, the observed value of the run loop is
just the try/catch of its body. -/
theorem runSessionWith_value (scope fli : List String) (env : RunEnv) :
    (runSessionWith scope fli env).value
      = jsTry (runSessionBodyWith scope fli env >>= fun _ => .ok true)
          (fun _ => .ok false) := by
  show jsTryCatchFinally _ _ (runSessionFinally env (runSessionAcquired scope fli env)).1 = _
  rw [runSessionFinally_fst]
  rfl

/-- C1. In every execution of `runSession` (part_000): the session is
acquired exactly when the create call succeeds; the finally block then makes
exactly one release attempt (none otherwise), on every path; the observed
run result is independent of whether that release attempt fails; and a
failed release is exactly what triggers the cleanup warn — it is never
rethrown as the run's outcome. -/
theorem runSession_release_discipline (env : RunEnv) :
    (runSession env).sessionAcquired = !env.fails 0
    ∧ (runSession env).releaseAttempts
        = (if (runSession env).sessionAcquired then 1 else 0)
    ∧ (runSession env).value = (runSession { env with releaseFails := false }).value
    ∧ (runSession env).releaseFailureLogged
        = ((runSession env).sessionAcquired && env.releaseFails) := by
  refine ⟨rfl, ?_, ?_, ?_⟩
  · exact runSessionFinally_attempts env _
  · unfold runSession
    rw [runSessionWith_value, runSessionWith_value]
    rfl
  · exact runSessionFinally_warned env _

/-- The failure log of the run loop mirrors its body's outcome. -/
theorem runSessionWith_runFailureLogged (scope fli : List String) (env : RunEnv) :
    (runSessionWith scope fli env).runFailureLogged
      = !jsOk (runSessionBodyWith scope fli env) := rfl

/-- C2. `runSession` (part_000) never lets an exception escape: for every
oracle it observably returns `.ok true` (and logs no run failure) or
`.ok false` having logged the failure of its body — never `.error`. -/
theorem runSession_never_escapes (env : RunEnv) :
    ((runSession env).value = .ok true ∧ (runSession env).runFailureLogged = false)
    ∨ ((runSession env).value = .ok false ∧ (runSession env).runFailureLogged = true) := by
  unfold runSession
  rw [runSessionWith_value, runSessionWith_runFailureLogged]
  cases hb : runSessionBodyWith part000RunSessionScope
      ["console", "sessionNumber", "totalSessions"] env with
  | ok a => exact Or.inl ⟨rfl, rfl⟩
  | error e => exact Or.inr ⟨rfl, rfl⟩

/-- C9. In the part_001 copy, `sessionCount` is not in scope inside
`runSession`, so the first statement of the try block throws a
`ReferenceError` on every invocation; the outer handler converts it to
`false`, no remote session is ever created, and no release is attempted. -/
theorem runSessionP1_reference_error (env : RunEnv) :
    "sessionCount" ∉ part001RunSessionScope
    ∧ resolveIdents part001RunSessionScope ["console", "sessionNumber", "sessionCount"]
        = .error "ReferenceError: sessionCount is not defined"
    ∧ (runSessionP1 env).value = .ok false
    ∧ (runSessionP1 env).sessionAcquired = false
    ∧ (runSessionP1 env).releaseAttempts = 0
    ∧ (runSessionP1 env).runFailureLogged = true := by
  have hres : resolveIdents part001RunSessionScope
      ["console", "sessionNumber", "sessionCount"]
        = .error "ReferenceError: sessionCount is not defined" := rfl
  have hb : runSessionBodyWith part001RunSessionScope
      ["console", "sessionNumber", "sessionCount"] env
        = .error "ReferenceError: sessionCount is not defined" := by
    unfold runSessionBodyWith
    rw [hres]
    rfl
  have hacq : runSessionAcquired part001RunSessionScope
      ["console", "sessionNumber", "sessionCount"] env = false := rfl
  refine ⟨by decide, hres, ?_, hacq, ?_, ?_⟩
  · unfold runSessionP1
    rw [runSessionWith_value, hb]
    rfl
  · show (runSessionFinally env (runSessionAcquired part001RunSessionScope
        ["console", "sessionNumber", "sessionCount"] env)).2.1 = 0
    rw [hacq, runSessionFinally_attempts]
    rfl
  · unfold runSessionP1
    rw [runSessionWith_runFailureLogged, hb]
    rfl

/-! ## Batch runner and service shell (`src/app/sessions_server.js`) -/

/-- One entry of `currentJobStats.errors`: `session` is `some i` for the
per-run records pushed at lines 114-117; `none` models the literal
`'global'` tag of the record pushed at lines 132-135. -/
structure ErrorEntry where
  session : Option Nat
  error : String
deriving Repr, DecidableEq

/-- The `currentJobStats` object (lines 65-70 / 95-100); `startTime` is an
abstract timestamp, `none` modelling the initial `null`. -/
structure JobStats where
  startTime : Option Nat
  completedSessions : Nat
  totalSessions : Nat
  errors : List ErrorEntry
deriving Repr, DecidableEq

/-- The module-initialisation value of `currentJobStats` (lines 65-70). -/
def initialJobStats : JobStats :=
  { startTime := none, completedSessions := 0, totalSessions := 0, errors := [] }

/-- The process-wide mutable state of the service shell: the RunLock
(`isJobRunning`, line 64) and the JobStats (`currentJobStats`, line 65). -/
structure ServerState where
  isJobRunning : Bool
  currentJobStats : JobStats
deriving Repr, DecidableEq

/-- Oracle for one invocation of `runScheduledSessions`. -/
structure BatchEnv where
  /-- The `Math.random()` draw behind the fallback session count (line 93). -/
  rand : Nat
  /-- The `new Date().toISOString()` timestamp taken at line 96. -/
  now : Nat
  /-- Outcome of `await runSession(i, ...)` at line 108 for iteration `i`
  (an `.error` is caught by the handler at lines 113-118). -/
  runResult : Nat → JsResult Bool

/-- The `options` argument of `runScheduledSessions` (line 85); only
`sessionCount` is ever read by the runner (line 93) — `maxConcurrent` is
accepted by the trigger route but unused. -/
structure BatchOptions where
  sessionCount : Option Nat
  maxConcurrent : Option Nat
deriving Repr, DecidableEq

/-- Line 93: `options.sessionCount || Math.floor(Math.random()*(52-23+1))+23`.
In JS both `undefined` and `0` are falsy and select the random draw. -/
def jsOrCount (v : Option Nat) (r : Nat) : Nat :=
  match v with
  | none => randomInt r 23 52
  | some n => if n = 0 then randomInt r 23 52 else n

/-- Observable events of one `runScheduledSessions` invocation, in order. -/
inductive BEvent where
  /-- The assignment `isJobRunning = true` (line 92). -/
  | lockSet
  /-- The `await runSession(i, ...)` of iteration `i` is issued (line 108). -/
  | runStart (i : Nat)
  /-- That await resolved or rejected (its rejection caught at line 113). -/
  | runEnd (i : Nat)
  /-- The 2-5 s `setTimeout` pause after iteration `i` (lines 121-122). -/
  | pauseAfter (i : Nat)
  /-- The assignment `isJobRunning = false` in the finally block (line 138). -/
  | lockCleared
  /-- The "Another job is already running" skip log (line 87). -/
  | skipLogged
deriving Repr, DecidableEq

/-- Accumulator of the `for (let i = 1; i <= sessionCount; i++)` loop
(lines 105-123): the `results` array, the stats object and the event trace. -/
structure LoopAcc where
  results : List Bool
  stats : JobStats
  trace : List BEvent
deriving Repr

/-- The trace of one loop iteration. -/
def runBlock (i : Nat) : List BEvent :=
  [.runStart i, .runEnd i, .pauseAfter i]

/-- One iteration of the loop (lines 106-123): on a resolved run the result
is pushed and `completedSessions` incremented when true (lines 109-112); on
a rejected run an error record is pushed instead (lines 113-118); either way
the inter-run pause follows (lines 121-122). -/
def runIter (env : BatchEnv) (i : Nat) (acc : LoopAcc) : LoopAcc :=
  match env.runResult i with
  | .ok r =>
      { results := acc.results ++ [r]
        stats := if r then
            { acc.stats with completedSessions := acc.stats.completedSessions + 1 }
          else acc.stats
        trace := acc.trace ++ runBlock i }
  | .error e =>
      { results := acc.results
        stats := { acc.stats with errors := acc.stats.errors ++ [⟨some i, e⟩] }
        trace := acc.trace ++ runBlock i }

/-- The whole loop, iterations `1..n`. -/
def batchLoop (env : BatchEnv) (n : Nat) (stats0 : JobStats) : LoopAcc :=
  (List.range n).foldl (fun acc k => runIter env (k + 1) acc)
    { results := [], stats := stats0, trace := [] }

/-- What one `runScheduledSessions` invocation produces. -/
structure BatchResult where
  /-- The value of the returned promise (`.error` would mean the function
  rejected). -/
  returned : JsResult Bool
  /-- The process state after the invocation has fully settled. -/
  state : ServerState
  /-- The event trace of the invocation. -/
  trace : List BEvent
  /-- The count `results.filter(r => r).length` (line 126). -/
  successCount : Nat
deriving Repr

/-- Embeds `runScheduledSessions` (lines 85-140).  When the RunLock is held the
function logs and returns `false` before the `try`, so the finally block
does not run (lines 86-89).  Otherwise: lock set (92), count chosen (93),
stats reset (95-100), the sequential loop (105-123), `return true` (128),
lock cleared in the finally (137-139).  The catch at lines 130-136 is
unreachable in this embedding because the only fallible operation of the
body — the `runSession` await — is caught by the inner handler at
lines 113-118 and the `setTimeout` promise never rejects. -/
def runScheduledSessions (env : BatchEnv) (options : BatchOptions)
    (s : ServerState) : BatchResult :=
  if s.isJobRunning then
    { returned := .ok false, state := s, trace := [.skipLogged], successCount := 0 }
  else
    let sessionCount := jsOrCount options.sessionCount env.rand
    let stats0 : JobStats :=
      { startTime := some env.now, completedSessions := 0
        totalSessions := sessionCount, errors := [] }
    let acc := batchLoop env sessionCount stats0
    { returned := .ok true
      state := { isJobRunning := false, currentJobStats := acc.stats }
      trace := [.lockSet] ++ acc.trace ++ [.lockCleared]
      successCount := (acc.results.filter (fun r => r)).length }

/-! ### HTTP surface -/

/-- Embeds `apiKeyAuth` (lines 73-82): the request passes iff the `x-api-key`
header is present, truthy and strictly equal to the configured key. -/
def apiKeyOk (configured : String) (header : Option String) : Bool :=
  match header with
  | none => false
  | some k => k != "" && k == configured

/-- Body of a `POST /trigger-sessions` response (lines 166-203). -/
inductive TriggerBody where
  /-- 401 from `apiKeyAuth` (lines 76-79). -/
  | unauthorized
  /-- 409 echoing the in-flight `currentJobStats` (lines 168-172). -/
  | conflict (currentJob : JobStats)
  /-- 202 echoing the accepted config (lines 189-196). -/
  | accepted (sessionCount : Option Nat) (maxConcurrent : Nat)
deriving Repr, DecidableEq

/-- The HTTP status of a trigger response. -/
def TriggerBody.status : TriggerBody → Nat
  | .unauthorized => 401
  | .conflict _ => 409
  | .accepted _ _ => 202

/-- The parsed `POST /trigger-sessions` request. -/
structure TriggerRequest where
  apiKeyHeader : Option String
  sessionCount : Option Nat
  /-- Defaulted to 1 at line 177; advisory only. -/
  maxConcurrent : Option Nat
deriving Repr, DecidableEq

/-- Embeds `POST /trigger-sessions` (lines 166-203).  The 202 response is sent
without awaiting the batch (line 182 starts it asynchronously); the
`ServerState` component of the result is the quiescent state after the
triggered batch, if any, has run to completion. -/
def postTriggerSessions (apiKey : String) (req : TriggerRequest) (env : BatchEnv)
    (s : ServerState) : TriggerBody × ServerState :=
  if !apiKeyOk apiKey req.apiKeyHeader then (.unauthorized, s)
  else if s.isJobRunning then (.conflict s.currentJobStats, s)
  else
    (.accepted req.sessionCount (req.maxConcurrent.getD 1),
     (runScheduledSessions env
        { sessionCount := req.sessionCount, maxConcurrent := req.maxConcurrent } s).state)

/-- Body of a 200 `GET /status` response (lines 159-162). -/
structure StatusBody where
  isJobRunning : Bool
  currentJob : Option JobStats
deriving Repr, DecidableEq

/-- A `GET /status` response. -/
inductive StatusResponse where
  | unauthorized
  | ok (body : StatusBody)
deriving Repr, DecidableEq

/-- The HTTP status of a status response. -/
def StatusResponse.status : StatusResponse → Nat
  | .unauthorized => 401
  | .ok _ => 200

/-- Embeds `GET /status` (lines 158-163): `currentJob` is the stats snapshot while
a job is running and the JS `null` (here `none`) otherwise. -/
def getStatus (apiKey : String) (header : Option String) (s : ServerState) : StatusResponse :=
  if !apiKeyOk apiKey header then .unauthorized
  else .ok { isJobRunning := s.isJobRunning
             currentJob := if s.isJobRunning then some s.currentJobStats else none }

/-- Recognizes the issuing of a run attempt. -/
def isRunStart : BEvent → Bool
  | .runStart _ => true
  | _ => false

/-- Recognizes the start or the settling of a run attempt. -/
def isRunEvent : BEvent → Bool
  | .runStart _ => true
  | .runEnd _ => true
  | _ => false

/-- A trace runs its sessions strictly sequentially: its run events are
exactly run 1's start then settling, then run 2's, ..., up to run `n`, with
no interleaving of distinct runs. -/
def SequentialRuns (tr : List BEvent) (n : Nat) : Prop :=
  tr.filter isRunEvent
    = (List.range n).flatMap (fun k => [.runStart (k + 1), .runEnd (k + 1)])

/-- Unrolling the last iteration of the batch loop. -/
theorem batchLoop_succ (env : BatchEnv) (stats0 : JobStats) (n : Nat) :
    batchLoop env (n + 1) stats0 = runIter env (n + 1) (batchLoop env n stats0) := by
  unfold batchLoop
  rw [List.range_succ n, List.foldl_append]
  rfl

/-- Loop invariants (lines 105-123): the trace is the canonical sequential
concatenation of the per-iteration blocks, at most one result is pushed per
iteration, `completedSessions` counts exactly the `true` results, and the
loop never touches `totalSessions` or `startTime`. -/
theorem batchLoop_spec (env : BatchEnv) (stats0 : JobStats) (n : Nat) :
    (batchLoop env n stats0).trace
        = (List.range n).flatMap (fun k => runBlock (k + 1))
    ∧ (batchLoop env n stats0).results.length ≤ n
    ∧ (batchLoop env n stats0).stats.completedSessions
        = stats0.completedSessions
          + ((batchLoop env n stats0).results.filter (fun r => r)).length
    ∧ (batchLoop env n stats0).stats.totalSessions = stats0.totalSessions
    ∧ (batchLoop env n stats0).stats.startTime = stats0.startTime := by
  induction n with
  | zero => exact ⟨rfl, Nat.le_refl 0, rfl, rfl, rfl⟩
  | succ m ih =>
    obtain ⟨ht, hl, hc, htot, hst⟩ := ih
    rw [batchLoop_succ]
    unfold runIter
    cases hr : env.runResult (m + 1) with
    | ok r =>
      cases r with
      | false =>
        refine ⟨?_, ?_, ?_, htot, hst⟩
        · simp only [ht, List.range_succ m, List.flatMap_append]
          rfl
        · simp only [List.length_append, List.length_singleton]
          omega
        · simp [List.filter_append, hc]
      | true =>
        refine ⟨?_, ?_, ?_, htot, hst⟩
        · simp only [ht, List.range_succ m, List.flatMap_append]
          rfl
        · simp only [List.length_append, List.length_singleton]
          omega
        · simp only [List.filter_append, hc]
          simp
          omega
    | error e =>
      refine ⟨?_, ?_, ?_, htot, hst⟩
      · simp only [ht, List.range_succ m, List.flatMap_append]
        rfl
      · exact Nat.le_succ_of_le hl
      · exact hc

/-- Filtering the canonical loop trace down to run starts. -/
theorem filter_runBlock_start (n : Nat) :
    ((List.range n).flatMap (fun k => runBlock (k + 1))).filter isRunStart
      = (List.range n).map (fun k => BEvent.runStart (k + 1)) := by
  induction n with
  | zero => rfl
  | succ m ih =>
    rw [List.range_succ m, List.flatMap_append, List.filter_append, ih,
      List.map_append]
    rfl

/-- Filtering the canonical loop trace down to run starts and settlings. -/
theorem filter_runBlock_events (n : Nat) :
    ((List.range n).flatMap (fun k => runBlock (k + 1))).filter isRunEvent
      = (List.range n).flatMap (fun k => [BEvent.runStart (k + 1), BEvent.runEnd (k + 1)]) := by
  induction n with
  | zero => rfl
  | succ m ih =>
    rw [List.range_succ m, List.flatMap_append, List.filter_append, ih,
      List.flatMap_append]
    rfl

/-- With the lock free, the invocation's trace is the lock-set event, the
canonical sequential loop trace, then the lock-cleared event. -/
theorem runScheduledSessions_trace (env : BatchEnv) (options : BatchOptions)
    (s : ServerState) (h : s.isJobRunning = false) :
    (runScheduledSessions env options s).trace
      = BEvent.lockSet ::
          ((List.range (jsOrCount options.sessionCount env.rand)).flatMap
              (fun k => runBlock (k + 1))
            ++ [BEvent.lockCleared]) := by
  unfold runScheduledSessions
  rw [h]
  show [BEvent.lockSet] ++ (batchLoop env (jsOrCount options.sessionCount env.rand) _).trace
      ++ [BEvent.lockCleared] = _
  rw [(batchLoop_spec env _ (jsOrCount options.sessionCount env.rand)).1]
  rfl

/-- With the lock free, the number of run attempts in the trace equals the
effective session count. -/
theorem runScheduledSessions_runStarts (env : BatchEnv) (options : BatchOptions)
    (s : ServerState) (h : s.isJobRunning = false) :
    ((runScheduledSessions env options s).trace.filter isRunStart).length
      = jsOrCount options.sessionCount env.rand := by
  rw [runScheduledSessions_trace env options s h]
  show (((List.range (jsOrCount options.sessionCount env.rand)).flatMap
      (fun k => runBlock (k + 1)) ++ [BEvent.lockCleared]).filter isRunStart).length = _
  rw [List.filter_append, filter_runBlock_start]
  simp [isRunStart]

/-- With the lock free, the run events of the trace are strictly sequential. -/
theorem runScheduledSessions_sequential (env : BatchEnv) (options : BatchOptions)
    (s : ServerState) (h : s.isJobRunning = false) :
    SequentialRuns (runScheduledSessions env options s).trace
      (jsOrCount options.sessionCount env.rand) := by
  unfold SequentialRuns
  rw [runScheduledSessions_trace env options s h]
  show ((List.range (jsOrCount options.sessionCount env.rand)).flatMap
      (fun k => runBlock (k + 1)) ++ [BEvent.lockCleared]).filter isRunEvent = _
  rw [List.filter_append, filter_runBlock_events]
  simp [isRunEvent]

/-- With the lock free, the success count is bounded by the session count. -/
theorem runScheduledSessions_successCount_le (env : BatchEnv) (options : BatchOptions)
    (s : ServerState) (h : s.isJobRunning = false) :
    (runScheduledSessions env options s).successCount
      ≤ jsOrCount options.sessionCount env.rand := by
  unfold runScheduledSessions
  rw [h]
  show ((batchLoop env (jsOrCount options.sessionCount env.rand) _).results.filter
      (fun r => r)).length ≤ _
  exact Nat.le_trans (List.length_filter_le _ _)
    (batchLoop_spec env _ (jsOrCount options.sessionCount env.rand)).2.1

/-- An explicit nonzero session count is honoured exactly (line 93). -/
theorem jsOrCount_some_pos (N r : Nat) (h : N ≠ 0) : jsOrCount (some N) r = N := by
  simp [jsOrCount, h]

/-- A falsy session count (absent or 0) selects the random draw (line 93). -/
theorem jsOrCount_falsy (v : Option Nat) (r : Nat)
    (h : v = some 0 ∨ v = none) : jsOrCount v r = randomInt r 23 52 := by
  rcases h with h | h <;> simp [jsOrCount, h]

/-- The fallback draw lands in `[23, 52]`. -/
theorem randomInt_23_52_range (r : Nat) :
    23 ≤ randomInt r 23 52 ∧ randomInt r 23 52 ≤ 52 := by
  unfold randomInt
  constructor <;> omega

/-- Uniformity of the fallback draw: every value of `[23, 52]` is produced
by exactly one of the 30 residues of the underlying draw. -/
theorem randomInt_23_52_unique (k : Nat) (h1 : 23 ≤ k) (h2 : k ≤ 52) :
    ∃! r, r < 30 ∧ randomInt r 23 52 = k := by
  refine ⟨k - 23, ⟨by omega, ?_⟩, ?_⟩
  · unfold randomInt
    omega
  · rintro r ⟨hr, hEq⟩
    unfold randomInt at hEq
    omega

/-- Concrete oracle: every run resolves successfully. -/
def sampleEnv : BatchEnv := { rand := 0, now := 0, runResult := fun _ => .ok true }

/-- Concrete options: one explicit session. -/
def sampleOptions : BatchOptions := { sessionCount := some 1, maxConcurrent := none }

/-- Concrete idle process state. -/
def idleState : ServerState := { isJobRunning := false, currentJobStats := initialJobStats }

/-- Concrete state with a batch in flight. -/
def busyState : ServerState := { isJobRunning := true, currentJobStats := initialJobStats }

/-- C3. The RunLock discipline of `runScheduledSessions`: on every non-skip
invocation the flag is set before any run starts (the lock-set event heads
the trace) and is cleared unconditionally at the very end of the invocation
whatever the run outcomes; an invocation arriving while the flag is set
leaves the state — in particular the in-flight batch's flag — untouched and
emits no lock events. -/
theorem runLock_discipline (env : BatchEnv) (options : BatchOptions) (s : ServerState) :
    (s.isJobRunning = false →
        (runScheduledSessions env options s).state.isJobRunning = false
        ∧ (runScheduledSessions env options s).trace.head? = some .lockSet
        ∧ (runScheduledSessions env options s).trace.getLast? = some .lockCleared)
    ∧ (s.isJobRunning = true →
        (runScheduledSessions env options s).state = s
        ∧ (runScheduledSessions env options s).state.isJobRunning = true
        ∧ BEvent.lockSet ∉ (runScheduledSessions env options s).trace
        ∧ BEvent.lockCleared ∉ (runScheduledSessions env options s).trace) := by
  constructor
  · intro h
    refine ⟨?_, ?_, ?_⟩
    · unfold runScheduledSessions
      rw [h]
      rfl
    · rw [runScheduledSessions_trace env options s h]
      rfl
    · rw [runScheduledSessions_trace env options s h]
      exact List.getLast?_concat
        (BEvent.lockSet :: (List.range (jsOrCount options.sessionCount env.rand)).flatMap
          (fun k => runBlock (k + 1)))
  · intro h
    have hred : runScheduledSessions env options s
        = { returned := .ok false, state := s, trace := [.skipLogged], successCount := 0 } := by
      unfold runScheduledSessions
      rw [h]
      rfl
    rw [hred]
    exact ⟨rfl, h, by simp, by simp⟩

/-- Witness for C3 at concrete inputs: an idle invocation ends with the lock
free, a busy one leaves the busy state untouched. -/
theorem runLock_discipline_witness :
    (runScheduledSessions sampleEnv sampleOptions idleState).state.isJobRunning = false
    ∧ (runScheduledSessions sampleEnv sampleOptions busyState).state = busyState :=
  ⟨((runLock_discipline sampleEnv sampleOptions idleState).1 rfl).1,
   ((runLock_discipline sampleEnv sampleOptions busyState).2 rfl).1⟩

/-- C4 counterexample. Invoked while a batch is in flight, the function
returns — without any exception being thrown — the boolean `false`, which is
exactly the value the batch-failure path returns (line 136); the trace shows
only the skip log.  So the refusal is NOT "a non-fatal skipped outcome
distinct from a batch-failure result" in the returned signal, and the
function does not "return true unless the orchestration itself throws". -/
theorem skip_returns_false_counterexample :
    (runScheduledSessions sampleEnv sampleOptions busyState).returned = .ok false
    ∧ (runScheduledSessions sampleEnv sampleOptions busyState).trace = [.skipLogged] :=
  ⟨rfl, rfl⟩

/-- C4 amended: `runScheduledSessions` returns `true` whenever a batch
actually starts, independent of individual run outcomes (the orchestration
body cannot throw: its only fallible operation is caught by the per-run
handler at lines 113-118); an invocation refused because another batch is in
progress returns the same boolean `false` a batch failure would return,
distinguished only by the skip log and by leaving the state untouched. -/
theorem runScheduledSessions_return_value (env : BatchEnv) (options : BatchOptions)
    (s : ServerState) :
    (s.isJobRunning = false → (runScheduledSessions env options s).returned = .ok true)
    ∧ (s.isJobRunning = true →
        (runScheduledSessions env options s).returned = .ok false
        ∧ (runScheduledSessions env options s).state = s
        ∧ (runScheduledSessions env options s).trace = [.skipLogged]) := by
  constructor
  · intro h
    unfold runScheduledSessions
    rw [h]
    rfl
  · intro h
    unfold runScheduledSessions
    rw [h]
    exact ⟨rfl, rfl, rfl⟩

/-- Witness for C4's amended statement at concrete inputs. -/
theorem runScheduledSessions_return_value_witness :
    (runScheduledSessions sampleEnv sampleOptions idleState).returned = .ok true
    ∧ (runScheduledSessions sampleEnv sampleOptions busyState).returned = .ok false :=
  ⟨(runScheduledSessions_return_value sampleEnv sampleOptions idleState).1 rfl,
   ((runScheduledSessions_return_value sampleEnv sampleOptions busyState).2 rfl).1⟩

/-- C5. With the lock free the batch runner performs exactly
`jsOrCount options.sessionCount env.rand` run attempts, strictly
sequentially, and its success count is at most that; an explicit nonzero
count is honoured exactly, and an unspecified count draws uniformly from
`[23, 52]` (each value produced by exactly one of the 30 residues). -/
theorem batch_exact_run_count (env : BatchEnv) (options : BatchOptions)
    (s : ServerState) (h : s.isJobRunning = false) :
    ((runScheduledSessions env options s).trace.filter isRunStart).length
        = jsOrCount options.sessionCount env.rand
    ∧ (runScheduledSessions env options s).successCount
        ≤ jsOrCount options.sessionCount env.rand
    ∧ SequentialRuns (runScheduledSessions env options s).trace
        (jsOrCount options.sessionCount env.rand)
    ∧ (∀ N, options.sessionCount = some N → N ≠ 0
        → jsOrCount options.sessionCount env.rand = N)
    ∧ (options.sessionCount = none →
        23 ≤ jsOrCount options.sessionCount env.rand
        ∧ jsOrCount options.sessionCount env.rand ≤ 52)
    ∧ (∀ k, 23 ≤ k → k ≤ 52 → ∃! r, r < 30 ∧ randomInt r 23 52 = k) := by
  refine ⟨runScheduledSessions_runStarts env options s h,
    runScheduledSessions_successCount_le env options s h,
    runScheduledSessions_sequential env options s h, ?_, ?_,
    randomInt_23_52_unique⟩
  · intro N hN hN0
    rw [hN]
    exact jsOrCount_some_pos N env.rand hN0
  · intro hN
    rw [jsOrCount_falsy options.sessionCount env.rand (Or.inr hN)]
    exact randomInt_23_52_range env.rand

/-- Witness for C5 at concrete inputs: one configured session yields exactly
one run attempt. -/
theorem batch_exact_run_count_witness :
    ((runScheduledSessions sampleEnv sampleOptions idleState).trace.filter isRunStart).length
      = 1 :=
  (batch_exact_run_count sampleEnv sampleOptions idleState rfl).1.trans rfl

/-- C10. A falsy `sessionCount` — absent, or the explicit `0` the
`POST /trigger-sessions` body can supply — is replaced by the random draw in
`[23, 52]`; an explicit 0 is never honoured: the batch still performs a
nonzero number of runs. -/
theorem zero_sessionCount_not_honored (env : BatchEnv) (options : BatchOptions)
    (s : ServerState) (h : s.isJobRunning = false)
    (h0 : options.sessionCount = some 0 ∨ options.sessionCount = none) :
    jsOrCount options.sessionCount env.rand = randomInt env.rand 23 52
    ∧ 23 ≤ jsOrCount options.sessionCount env.rand
    ∧ jsOrCount options.sessionCount env.rand ≤ 52
    ∧ ((runScheduledSessions env options s).trace.filter isRunStart).length ≠ 0 := by
  have h1 := jsOrCount_falsy options.sessionCount env.rand h0
  have h2 := randomInt_23_52_range env.rand
  refine ⟨h1, h1 ▸ h2.1, h1 ▸ h2.2, ?_⟩
  rw [runScheduledSessions_runStarts env options s h, h1]
  omega

/-- Witness for C10: a trigger carrying an explicit `sessionCount = 0` on an
idle server still schedules the random 23-52 run count. -/
theorem zero_sessionCount_not_honored_witness :
    jsOrCount (some 0) 0 = randomInt 0 23 52 :=
  (zero_sessionCount_not_honored sampleEnv
    { sessionCount := some 0, maxConcurrent := none } idleState rfl (Or.inl rfl)).1

/-- A one-iteration loop is a single `runIter` on the fresh accumulator. -/
theorem batchLoop_one (env : BatchEnv) (stats0 : JobStats) :
    batchLoop env 1 stats0 = runIter env 1 { results := [], stats := stats0, trace := [] } :=
  rfl

/-- A single-session batch (`sessionCount = some 1`): the lock ends free,
the retained stats count 1 completed session iff the run returned true, and
the total is 1. -/
theorem runScheduledSessions_single (env : BatchEnv) (options : BatchOptions)
    (s : ServerState) (h : s.isJobRunning = false) (hc : options.sessionCount = some 1) :
    (runScheduledSessions env options s).state.isJobRunning = false
    ∧ (runScheduledSessions env options s).state.currentJobStats.completedSessions
        = (match env.runResult 1 with | .ok true => 1 | _ => 0)
    ∧ (runScheduledSessions env options s).state.currentJobStats.totalSessions = 1 := by
  have hn : jsOrCount options.sessionCount env.rand = 1 := by rw [hc]; rfl
  have hstate : (runScheduledSessions env options s).state
      = { isJobRunning := false,
          currentJobStats := (batchLoop env 1
            { startTime := some env.now, completedSessions := 0,
              totalSessions := 1, errors := [] }).stats } := by
    unfold runScheduledSessions
    rw [h]
    show ({ isJobRunning := false,
            currentJobStats := (batchLoop env (jsOrCount options.sessionCount env.rand)
              { startTime := some env.now, completedSessions := 0,
                totalSessions := jsOrCount options.sessionCount env.rand,
                errors := [] }).stats } : ServerState) = _
    rw [hn]
  rw [hstate, batchLoop_one]
  unfold runIter
  cases hr : env.runResult 1 with
  | ok r => cases r <;> exact ⟨rfl, rfl, rfl⟩
  | error e => exact ⟨rfl, rfl, rfl⟩

/-- With a valid key and the lock free, the trigger route accepts; the state
component is the quiescent state after the triggered batch completes. -/
theorem postTrigger_accepted (apiKey : String) (req : TriggerRequest) (env : BatchEnv)
    (s : ServerState) (hAuth : apiKeyOk apiKey req.apiKeyHeader = true)
    (hIdle : s.isJobRunning = false) :
    postTriggerSessions apiKey req env s
      = (.accepted req.sessionCount (req.maxConcurrent.getD 1),
         (runScheduledSessions env
            { sessionCount := req.sessionCount, maxConcurrent := req.maxConcurrent } s).state) := by
  unfold postTriggerSessions
  rw [hAuth, hIdle]
  rfl

/-- C8. A `POST /trigger-sessions` carrying a valid key while a batch is in
flight yields the 409 conflict response echoing the in-flight
`currentJobStats`, and leaves the whole server state — in particular the
JobStats — completely unchanged. -/
theorem trigger_conflict_frame (apiKey : String) (req : TriggerRequest) (env : BatchEnv)
    (s : ServerState) (hAuth : apiKeyOk apiKey req.apiKeyHeader = true)
    (hBusy : s.isJobRunning = true) :
    postTriggerSessions apiKey req env s = (.conflict s.currentJobStats, s)
    ∧ (postTriggerSessions apiKey req env s).1.status = 409 := by
  have hred : postTriggerSessions apiKey req env s = (.conflict s.currentJobStats, s) := by
    unfold postTriggerSessions
    rw [hAuth, hBusy]
    rfl
  refine ⟨hred, ?_⟩
  rw [hred]
  rfl

/-- A concrete conflicting trigger request. -/
def conflictRequest : TriggerRequest :=
  { apiKeyHeader := some "secret", sessionCount := none, maxConcurrent := none }

/-- Witness for C8 at concrete inputs. -/
theorem trigger_conflict_frame_witness :
    postTriggerSessions "secret" conflictRequest sampleEnv busyState
      = (.conflict initialJobStats, busyState) :=
  (trigger_conflict_frame "secret" conflictRequest sampleEnv busyState (by decide) rfl).1

/-- A concrete single-session trigger request. -/
def oneRunRequest : TriggerRequest :=
  { apiKeyHeader := some "secret", sessionCount := some 1, maxConcurrent := none }

/-- C7 counterexample: with `sessionCount = 1` triggered while idle the
response is 202 and the single run completes successfully — the retained
JobStats records 1 completed session — yet the subsequent `GET /status`
reports `currentJob = none` (the JS `null`, since line 161 nulls the
snapshot whenever `isJobRunning` is false), not a `currentJob` reflecting
the 0-or-1 completed sessions. -/
theorem status_null_after_completion_counterexample :
    (postTriggerSessions "secret" oneRunRequest sampleEnv idleState).1.status = 202
    ∧ (postTriggerSessions "secret" oneRunRequest sampleEnv
        idleState).2.currentJobStats.completedSessions = 1
    ∧ getStatus "secret" (some "secret")
        (postTriggerSessions "secret" oneRunRequest sampleEnv idleState).2
      = .ok { isJobRunning := false, currentJob := none } :=
  ⟨rfl, rfl, rfl⟩

/-- C7 amended. Triggering `sessionCount = 1` with a valid key while idle
yields 202; after the batch completes, `GET /status` with the same key
reports `isJobRunning: false` and `currentJob: null` (the endpoint nulls the
snapshot when idle), while the retained internal JobStats records a total of
1 and 1 completed session if the run returned true, 0 otherwise. -/
theorem status_after_single_run (apiKey : String) (req : TriggerRequest) (env : BatchEnv)
    (s : ServerState) (hAuth : apiKeyOk apiKey req.apiKeyHeader = true)
    (hIdle : s.isJobRunning = false) (hCount : req.sessionCount = some 1) :
    (postTriggerSessions apiKey req env s).1.status = 202
    ∧ (postTriggerSessions apiKey req env s).2.isJobRunning = false
    ∧ getStatus apiKey req.apiKeyHeader (postTriggerSessions apiKey req env s).2
        = .ok { isJobRunning := false, currentJob := none }
    ∧ (postTriggerSessions apiKey req env s).2.currentJobStats.totalSessions = 1
    ∧ (postTriggerSessions apiKey req env s).2.currentJobStats.completedSessions
        = (match env.runResult 1 with | .ok true => 1 | _ => 0) := by
  have hsingle := runScheduledSessions_single env
    { sessionCount := req.sessionCount, maxConcurrent := req.maxConcurrent } s hIdle hCount
  rw [postTrigger_accepted apiKey req env s hAuth hIdle]
  refine ⟨rfl, hsingle.1, ?_, hsingle.2.2, hsingle.2.1⟩
  unfold getStatus
  rw [hAuth, hsingle.1]
  rfl

/-- Witness for C7's amended statement at concrete inputs. -/
theorem status_after_single_run_witness :
    getStatus "secret" oneRunRequest.apiKeyHeader
        (postTriggerSessions "secret" oneRunRequest sampleEnv idleState).2
      = .ok { isJobRunning := false, currentJob := none } :=
  (status_after_single_run "secret" oneRunRequest sampleEnv idleState
    (by decide) rfl rfl).2.2.1

end SessionHog
